import Mathlib

/-!
Verification of the wrci pipeline DSL (tokenizer, parser, executor) against
its specification.  The definitions below are a shallow embedding of
`src/wrci.py`: Python dicts become ordered association lists, the regex-based
line matchers become character-list matchers with the same match/backtracking
behaviour, exceptions become explicit error values threaded through the state
(Python mutations survive a raised exception, so the state is returned
alongside the error), and the external `docker` calls become an `Adapter`
oracle whose calls are recorded as observable events.
-/

namespace Wrci

/-- Python truthiness of an optional string: `None` and `""` are falsy. -/
def truthy : Option String → Bool
  | none => false
  | some s => !s.isEmpty

/-- Python `str()` applied to a value that is either `None` or a string. -/
def pyStr : Option String → String
  | none => "None"
  | some s => s

/-- Lookup in an insertion-ordered dictionary (Python `dict.get`). -/
def dictGet (d : List (String × String)) (k : String) : Option String :=
  (d.find? (fun p => p.1 == k)).map (fun p => p.2)

/-- Update of an insertion-ordered dictionary (Python `d[k] = v`):
overwrite in place if the key exists, else append. -/
def dictSet (d : List (String × String)) (k v : String) : List (String × String) :=
  if d.any (fun p => p.1 == k) then
    d.map (fun p => if p.1 == k then (k, v) else p)
  else
    d ++ [(k, v)]

/-- Python `\w` (restricted to the ASCII inputs the DSL uses). -/
def isWordChar (c : Char) : Bool := c.isAlphanum || c == '_'

/-- Split a character list at the first occurrence of `c`
(regex `(.*?)c`): content before the first `c`, remainder after it. -/
def splitAtChar (c : Char) : List Char → Option (List Char × List Char)
  | [] => none
  | x :: xs =>
    if x == c then some ([], xs)
    else
      match splitAtChar c xs with
      | some (a, b) => some (x :: a, b)
      | none => none

/-- Lazy match `(.+?)a`: shortest non-empty prefix followed by the
character `a`; returns the prefix and the remainder after `a`. -/
def lazySplit1 (a : Char) : List Char → Option (List Char × List Char)
  | [] => none
  | x :: rest =>
    match rest with
    | r1 :: rr =>
      if r1 == a then some ([x], rr)
      else
        match lazySplit1 a rest with
        | some (p, r) => some (x :: p, r)
        | none => none
    | [] => none

/-- Lazy match `(.+?)ab`: shortest non-empty prefix followed by the
two-character sequence `a b`; returns the prefix and the remainder. -/
def lazySplit2 (a b : Char) : List Char → Option (List Char × List Char)
  | [] => none
  | x :: rest =>
    match rest with
    | r1 :: r2 :: _ =>
      if r1 == a && r2 == b then some ([x], rest.drop 2)
      else
        match lazySplit2 a b rest with
        | some (p, r) => some (x :: p, r)
        | none => none
    | _ => none

/-- Maximal run of whitespace removed from the front (regex greedy
whitespace; no backtracking is needed because the characters that follow
in each use site are never whitespace). -/
def dropSpaces (l : List Char) : List Char := l.dropWhile (fun c => c.isWhitespace)

/-- `re.match(r'PIPELINE\((.*?)\)', line)`: the line must begin with
`PIPELINE(` and contain a later `)`; group 1 is the text up to the
first `)`. -/
def pipeMatch : List Char → Option (List Char)
  | 'P' :: 'I' :: 'P' :: 'E' :: 'L' :: 'I' :: 'N' :: 'E' :: '(' :: rest =>
    (splitAtChar ')' rest).map (fun p => p.1)
  | _ => none

/-- `re.match(r'STEP (.+)', line)`: group 1 is everything after `STEP `. -/
def stepMatch : List Char → Option (List Char)
  | 'S' :: 'T' :: 'E' :: 'P' :: ' ' :: rest => if rest.isEmpty then none else some rest
  | _ => none

/-- `re.match(r'IF \$(\w+)\s*([=!]=)\s*"(.+?)":', line)`: variable name,
operator (`==` or `!=`) and quoted literal.  The word run and whitespace
runs are maximal (the neighbouring characters are never word or space
characters, so the regex never backtracks into them). -/
def ifMatch : List Char → Option (String × String × String)
  | 'I' :: 'F' :: ' ' :: '$' :: rest =>
    let w := rest.takeWhile isWordChar
    if w.isEmpty then none
    else
      match dropSpaces (rest.dropWhile isWordChar) with
      | c1 :: '=' :: r3 =>
        if c1 == '=' || c1 == '!' then
          match dropSpaces r3 with
          | '"' :: r5 =>
            match lazySplit2 '"' ':' r5 with
            | some (v, _) => some (String.mk w, String.mk [c1, '='], String.mk v)
            | none => none
          | _ => none
        else none
      | _ => none
  | _ => none

/-- `re.match(r'ELSE:', line)`: the line begins with `ELSE:`. -/
def elseMatch : List Char → Bool
  | 'E' :: 'L' :: 'S' :: 'E' :: ':' :: _ => true
  | _ => false

/-- `re.match(r'MSG\("(.+?)"\)', line)`: the quoted message text. -/
def msgMatch : List Char → Option (List Char)
  | 'M' :: 'S' :: 'G' :: '(' :: '"' :: rest => (lazySplit2 '"' ')' rest).map (fun p => p.1)
  | _ => none

/-- `re.match(r'\$(\w+)\s*=\s*"(.+?)"', line)`: assignment target and
quoted literal. -/
def assignMatch : List Char → Option (String × String)
  | '$' :: rest =>
    let w := rest.takeWhile isWordChar
    if w.isEmpty then none
    else
      match dropSpaces (rest.dropWhile isWordChar) with
      | '=' :: r3 =>
        match dropSpaces r3 with
        | '"' :: r5 => (lazySplit1 '"' r5).map (fun p => (String.mk w, String.mk p.1))
        | _ => none
      | _ => none
  | _ => none

/-- `re.match(r'END', line)`: the line begins with `END`. -/
def endMatch : List Char → Bool
  | 'E' :: 'N' :: 'D' :: _ => true
  | _ => false

/-- `re.match(r'EXIT', line)`: the line begins with `EXIT`. -/
def exitMatch : List Char → Bool
  | 'E' :: 'X' :: 'I' :: 'T' :: _ => true
  | _ => false

/-- One match of `(\w+)="(.*?)"` at the start of the input: key, value and
remainder.  Shrinking the greedy `\w+` cannot help (a shorter run is
followed by a word character, not `=`), so the maximal run is exact. -/
def tryParam (l : List Char) : Option (List Char × List Char × List Char) :=
  let w := l.takeWhile isWordChar
  if w.isEmpty then none
  else
    match l.dropWhile isWordChar with
    | '=' :: '"' :: r2 => (splitAtChar '"' r2).map (fun p => (w, p.1, p.2))
    | _ => none

/-- `re.findall(r'(\w+)="(.*?)"', s)`: left-to-right non-overlapping
matches.  Fuel is the input length; every step consumes at least one
character, so the fuel never runs out on the initial call. -/
def findParamsF : Nat → List Char → List (List Char × List Char)
  | 0, _ => []
  | _, [] => []
  | fuel + 1, c :: cs =>
    match tryParam (c :: cs) with
    | some (k, v, rest) => (k, v) :: findParamsF fuel rest
    | none => findParamsF fuel cs

/-- All `key="value"` pairs found in a parameter string. -/
def findParams (l : List Char) : List (List Char × List Char) :=
  findParamsF l.length l

/-- Python `dict(re.findall(...))`: later occurrences of a key overwrite
earlier ones. -/
def paramsDict (ps : List (List Char × List Char)) : List (String × String) :=
  ps.foldl (fun d kv => dictSet d (String.mk kv.1) (String.mk kv.2)) []

/-- AST nodes built by the parser.  Bodies are ordered statement lists.
The `els` field of `pipeline` and `ifN` mirrors the dynamically attached
`node["else"]` dictionary entry: the parser attaches an `ELSE` block to
whatever node was last appended to the parent block, which is always the
`PIPELINE` or `IF` node whose block is currently open.  `ELSE` and `END`
node kinds never occur inside a body (the parser stores `ELSE` blocks only
in `els` fields and `END` only pops), so they have no constructors. -/
inductive Node where
  | pipeline (helper_image start_command name : Option String)
      (body : List Node) (els : Option (List Node))
  | stepN (script : String)
  | ifN (vname operator value : String) (body : List Node) (els : Option (List Node))
  | msgN (message : String)
  | assignN (name value : String)
  | exitN

/-- Parse errors: `SyntaxError` for an unmatched terminator, `IndexError`
for the `stack.pop()` / `parent_block[-1]` accesses an `ELSE` performs on
an empty stack. -/
inductive PErr where
  | syntaxError (msg : String)
  | indexError
deriving Repr, DecidableEq

/-- An open block on the parser's stack.  Each frame records the parent
block's contents so far together with the header of the node under
construction; this is the pure counterpart of Python's list of
by-reference block lists. -/
inductive Frame where
  | pipeFrame (parent : List Node) (helper_image start_command name : Option String)
  | ifFrame (parent : List Node) (vname operator value : String)
  | elseIfFrame (parent : List Node) (vname operator value : String) (ifBody : List Node)
  | elsePipeFrame (parent : List Node) (helper_image start_command name : Option String)
      (pipeBody : List Node)

/-- Parser state: the stack of open frames, the block currently receiving
statements, and the variable dictionary seeded from pipeline parameters. -/
structure PState where
  stack : List Frame
  current : List Node
  vars : List (String × String)

/-- The empty initial parser state. -/
def initPState : PState := { stack := [], current := [], vars := [] }

/-- Closing a frame materialises the node under construction and appends
it to the parent block (in Python this happened eagerly by mutation). -/
def closeFrame : Frame → List Node → List Node
  | Frame.pipeFrame p hi sc nm, cur => p ++ [Node.pipeline hi sc nm cur none]
  | Frame.ifFrame p v op val, cur => p ++ [Node.ifN v op val cur none]
  | Frame.elseIfFrame p v op val ib, cur => p ++ [Node.ifN v op val ib (some cur)]
  | Frame.elsePipeFrame p hi sc nm pb, cur => p ++ [Node.pipeline hi sc nm pb (some cur)]

/-- The generic block terminator: pop one frame, or fail when no block is
open (`raise SyntaxError("END without matching block")`). -/
def endStep (st : PState) : Except PErr PState :=
  match st.stack with
  | [] => Except.error (PErr.syntaxError "END without matching block")
  | f :: fs =>
    Except.ok { stack := fs, current := closeFrame f st.current, vars := st.vars }

/-- One iteration of the parser's `for line in iterator` loop: the eight
statement forms are attempted in the source's order, first match wins, and
a line matching none of them is silently skipped (the `if/elif` chain has
no final `else`). -/
def parseLine (line : List Char) (st : PState) : Except PErr PState :=
  match pipeMatch line with
  | some params_str =>
    let params := paramsDict (findParams params_str)
    let helper_image := dictGet params "helper_image"
    let start_command := dictGet params "start_command"
    let pipeline_name := dictGet params "name"
    let v1 := if truthy helper_image then dictSet st.vars "helper_image" (helper_image.getD "")
              else st.vars
    let v2 := if truthy start_command then dictSet v1 "start_command" (start_command.getD "")
              else v1
    let v3 := if truthy pipeline_name then dictSet v2 "pipeline_name" (pipeline_name.getD "")
              else v2
    Except.ok { stack := Frame.pipeFrame st.current helper_image start_command pipeline_name :: st.stack,
                current := [], vars := v3 }
  | none =>
  match stepMatch line with
  | some script => Except.ok { st with current := st.current ++ [Node.stepN (String.mk script)] }
  | none =>
  match ifMatch line with
  | some (v, op, val) =>
    Except.ok { stack := Frame.ifFrame st.current v op val :: st.stack,
                current := [], vars := st.vars }
  | none =>
  if elseMatch line then
    match st.stack with
    | [] => Except.error PErr.indexError
    | f :: fs =>
      match f with
      | Frame.pipeFrame p hi sc nm =>
        Except.ok { stack := Frame.elsePipeFrame p hi sc nm st.current :: fs,
                    current := [], vars := st.vars }
      | Frame.ifFrame p v op val =>
        Except.ok { stack := Frame.elseIfFrame p v op val st.current :: fs,
                    current := [], vars := st.vars }
      | Frame.elseIfFrame p v op val ib =>
        Except.ok { stack := Frame.elseIfFrame p v op val ib :: fs,
                    current := [], vars := st.vars }
      | Frame.elsePipeFrame p hi sc nm pb =>
        Except.ok { stack := Frame.elsePipeFrame p hi sc nm pb :: fs,
                    current := [], vars := st.vars }
  else
  match msgMatch line with
  | some m => Except.ok { st with current := st.current ++ [Node.msgN (String.mk m)] }
  | none =>
  match assignMatch line with
  | some (n, v) => Except.ok { st with current := st.current ++ [Node.assignN n v] }
  | none =>
  if endMatch line then endStep st
  else if exitMatch line then
    Except.ok { st with current := st.current ++ [Node.exitN] }
  else
    Except.ok st

/-- The whole `parse` loop over the token list. -/
def parseTokens (tokens : List String) : Except PErr PState :=
  tokens.foldlM (fun st line => parseLine line.toList st) initPState

/-- Remaining open frames at end of input are not an error: Python built
the tree by mutation, so `self.ast` already holds every node including the
unclosed ones; closing the frames reconstructs exactly that tree. -/
def finalizeStack : List Frame → List Node → List Node
  | [], cur => cur
  | f :: fs, cur => finalizeStack fs (closeFrame f cur)

/-- `get_ast`: the seeded variable dictionary and the top-level node list. -/
def get_ast (st : PState) : List (String × String) × List Node :=
  (st.vars, finalizeStack st.stack st.current)

/-- Python `str.strip()`: drop leading and trailing whitespace. -/
def stripChars (l : List Char) : List Char :=
  ((l.dropWhile (fun c => c.isWhitespace)).reverse.dropWhile (fun c => c.isWhitespace)).reverse

/-- Python `str.split("\n")`: split into (possibly empty) segments at
every newline. -/
def splitOnNl : List Char → List (List Char)
  | [] => [[]]
  | c :: cs =>
    match splitOnNl cs with
    | r :: rs => if c == '\n' then [] :: r :: rs else (c :: r) :: rs
    | [] => [[c]]

/-- Python `line.startswith("#")`. -/
def isCommentLine : List Char → Bool
  | '#' :: _ => true
  | _ => false

/-- The tokenizer: strip the text, split on newlines, strip each line, and
drop blank lines and `#` comments. -/
def tokenize (s : String) : List String :=
  ((((splitOnNl (stripChars s.toList)).map stripChars).filter
    (fun l => !(l.isEmpty || isCommentLine l))).map String.mk)

/-- Observable effects of a run: `docker run` (create), `docker exec`
(run a step, with its exit code), `docker kill`, and a printed `MSG`. -/
inductive Event where
  | create (name image : String) (cid : String)
  | execEv (cid : String) (path : String) (rc : Int)
  | kill (cid : String)
  | msg (text : String)
deriving Repr, DecidableEq

/-- Runtime exceptions: `ExecutionStopped` raised by `EXIT`, `ValueError`
raised by `start_container`, and the `TypeError` Python's `subprocess.run`
raises when the container id passed to `docker exec` is `None`. -/
inductive RErr where
  | executionStopped
  | valueError (msg : String)
  | typeError
deriving Repr, DecidableEq

/-- The external container runtime: `createCid name image start_command`
is the container id printed by `docker run` (its stdout, stripped), and
`execRc cid path env` is the exit code of `docker exec`. -/
structure Adapter where
  createCid : String → String → Option String → String
  execRc : String → String → List (String × String) → Int

/-- Mutable executor state: the shared variable dictionary, the exit code
of the last step, the registry of running containers keyed by pipeline
name, and the log of observable events so far. -/
structure ExecState where
  vars : List (String × String)
  last_rc : Int
  running_containers : List (String × String)
  events : List Event
deriving Repr, DecidableEq

/-- `start_container`: requires a truthy `name`; reuses a registry entry
for that name; else, without a truthy `helper_image`, reuses a truthy
parent container id or fails; else creates and registers a container.
Returns the (possibly updated) state, an error, and the container id. -/
def start_container (ad : Adapter) (name helper_image start_command : Option String)
    (parent_container_id : Option String) (st : ExecState) :
    ExecState × Option RErr × Option String :=
  if !truthy name then
    (st, some (RErr.valueError "Pipeline must have a \x27name\x27 to assign a container"), none)
  else
    let pipeline_name := name.getD ""
    match dictGet st.running_containers pipeline_name with
    | some cid => (st, none, some cid)
    | none =>
      if !truthy helper_image then
        if truthy parent_container_id then (st, none, parent_container_id)
        else
          (st, some (RErr.valueError ("Cannot start pipeline \x27" ++ pipeline_name ++
            "\x27: no helper_image and no parent container")), none)
      else
        let img := helper_image.getD ""
        let cmd := if truthy start_command then start_command else none
        let container_id := ad.createCid pipeline_name img cmd
        ({ st with
            running_containers := dictSet st.running_containers pipeline_name container_id,
            events := st.events ++ [Event.create pipeline_name img container_id] },
          none, some container_id)

/-- `stop_all_containers`: kill every registered container in registry
order, then clear the registry. -/
def stop_all_containers (st : ExecState) : ExecState :=
  { st with
      running_containers := [],
      events := st.events ++ st.running_containers.map (fun p => Event.kill p.2) }

/-- The step script path: `/pipeline/<name>/<script>` when the current
pipeline name is truthy, else `/pipeline/<script>`. -/
def stepPath (pipeline_name : Option String) (script : String) : String :=
  if truthy pipeline_name then "/pipeline/" ++ pipeline_name.getD "" ++ "/" ++ script
  else "/pipeline/" ++ script

/-- `run_step`: `docker exec` the script in the given container with every
variable as an environment binding; store the exit code in `last_rc`.
A `None` container id makes `subprocess.run` raise `TypeError`. -/
def run_step (ad : Adapter) (script : String) (pipeline_name container_id : Option String)
    (st : ExecState) : ExecState × Option RErr :=
  match container_id with
  | none => (st, some RErr.typeError)
  | some cid =>
    let rc := ad.execRc cid (stepPath pipeline_name script) st.vars
    ({ st with
        last_rc := rc,
        events := st.events ++ [Event.execEv cid (stepPath pipeline_name script) rc] },
      none)

/-- `execute_block`: interpret a statement list.  An error result aborts
the remaining statements and propagates (the state keeps the mutations
made before the raise).  The `PIPELINE` branch inlines the body of
`self.run_pipeline(node, parent_container_id=container_id)` — defined
separately below as `run_pipeline` — because that method and this one are
mutually recursive in the source; `run_pipeline` has no `return`
statement, so the branch continues with container id `none` and then
executes the node's body a second time, exactly as the source does.
`ELSE`/`END` node kinds never occur in a block (see `Node`), so the
source's dead branches for them have no counterpart here. -/
def execute_block (ad : Adapter) :
    List Node → Option String → Option String → ExecState → ExecState × Option RErr
  | [], _, _, st => (st, none)
  | Node.pipeline hi sc nm body _ :: rest, container_id, pipeline_name, st =>
    let r1 : ExecState × Option RErr :=
      match start_container ad nm hi sc container_id st with
      | (st1, some e, _) => (st1, some e)
      | (st1, none, cid) =>
        match execute_block ad body cid none st1 with
        | (st2, some e) => (st2, some e)
        | (st2, none) => (stop_all_containers st2, none)
    match r1 with
    | (st1, some e) => (st1, some e)
    | (st1, none) =>
      match execute_block ad body none nm st1 with
      | (st2, some e) => (st2, some e)
      | (st2, none) => execute_block ad rest none pipeline_name st2
  | Node.msgN m :: rest, container_id, pipeline_name, st =>
    execute_block ad rest container_id pipeline_name
      { st with events := st.events ++ [Event.msg ("Message: " ++ m)] }
  | Node.stepN script :: rest, container_id, pipeline_name, st =>
    match run_step ad script pipeline_name container_id st with
    | (st1, some e) => (st1, some e)
    | (st1, none) => execute_block ad rest container_id pipeline_name st1
  | Node.assignN n v :: rest, container_id, pipeline_name, st =>
    execute_block ad rest container_id pipeline_name { st with vars := dictSet st.vars n v }
  | Node.ifN v op val body els :: rest, container_id, pipeline_name, st =>
    let actual := dictGet st.vars v
    let r1 :=
      if op == "==" && pyStr actual == val then
        execute_block ad body container_id pipeline_name st
      else if op == "!=" && pyStr actual != val then
        execute_block ad body container_id pipeline_name st
      else
        match els with
        | some e => execute_block ad e container_id pipeline_name st
        | none => (st, none)
    match r1 with
    | (st1, some e) => (st1, some e)
    | (st1, none) => execute_block ad rest container_id pipeline_name st1
  | Node.exitN :: _, _, _, st => (st, some RErr.executionStopped)

/-- `run_pipeline`: start (or reuse) the container, execute the body with
pipeline name `None` (the method omits that argument), then stop ALL
running containers.  The Python method has no `return` statement, so its
value is always `None`; callers assign that `None` to their container id. -/
def run_pipeline (ad : Adapter) (helper_image start_command name : Option String)
    (body : List Node) (parent_container_id : Option String) (st : ExecState) :
    ExecState × Option RErr :=
  match start_container ad name helper_image start_command parent_container_id st with
  | (st1, some e, _) => (st1, some e)
  | (st1, none, cid) =>
    match execute_block ad body cid none st1 with
    | (st2, some e) => (st2, some e)
    | (st2, none) => (stop_all_containers st2, none)

/-- The `for node in self.ast` loop of `execute`: run each top-level
`PIPELINE` node via `run_pipeline`, then execute its body once more with
the `None` the method returned; skip any other top-level node kind. -/
def execTop (ad : Adapter) : List Node → ExecState → ExecState × Option RErr
  | [], st => (st, none)
  | Node.pipeline hi sc nm body _ :: rest, st =>
    match run_pipeline ad hi sc nm body none st with
    | (st1, some e) => (st1, some e)
    | (st1, none) =>
      match execute_block ad body none nm st1 with
      | (st2, some e) => (st2, some e)
      | (st2, none) => execTop ad rest st2
  | _ :: rest, st => execTop ad rest st

/-- `PipelineExecutor.execute`: walk the AST; catch `ExecutionStopped`
(early exit is a normal completion); always stop all containers in the
`finally` block; re-raise any other exception. -/
def execute (ad : Adapter) (vars : List (String × String)) (ast : List Node) :
    ExecState × Option RErr :=
  let st0 : ExecState :=
    { vars := vars, last_rc := 0, running_containers := [], events := [] }
  match execTop ad ast st0 with
  | (st, some RErr.executionStopped) => (stop_all_containers st, none)
  | (st, some e) => (stop_all_containers st, some e)
  | (st, none) => (stop_all_containers st, none)

/-- The whole program on a source text: tokenize, parse, build the AST
with its seeded variables, execute. -/
def runScript (ad : Adapter) (text : String) : Except PErr (ExecState × Option RErr) :=
  (parseTokens (tokenize text)).map (fun pst =>
    let va := get_ast pst
    execute ad va.1 va.2)

/-! Fixtures shared by the claim theorems below: deterministic adapters
and small concrete states. -/

/-- An adapter whose created containers are named `c-<pipeline name>` and
whose steps all exit with code 0. -/
def ad0 : Adapter := { createCid := fun n _ _ => "c-" ++ n, execRc := fun _ _ _ => 0 }

/-- An adapter like `ad0` whose steps all exit with code 7. -/
def ad7 : Adapter := { createCid := fun n _ _ => "c-" ++ n, execRc := fun _ _ _ => 7 }

/-- The empty initial executor state. -/
def st0 : ExecState := { vars := [], last_rc := 0, running_containers := [], events := [] }

/-- A state in which pipeline `p` already owns container `c0`. -/
def st5 : ExecState := { vars := [], last_rc := 0, running_containers := [("p", "c0")], events := [] }

/-- Modelled from the spec (the source performs no substitution, see C1):
flush a collected placeholder name — replace it by the environment's value
when the name is bound, else leave the `$name` text as-is. -/
def flushVar (env : List (String × String)) (w : List Char) : List Char :=
  if w.isEmpty then ['$']
  else
    match dictGet env (String.mk w) with
    | some v => v.toList
    | none => '$' :: w

/-- Modelled from the spec: scan the template; a `$` starts collecting a
word-character name, flushed via `flushVar` at the first non-word
character or at the end. -/
def substGo (env : List (String × String)) : Option (List Char) → List Char → List Char
  | none, [] => []
  | some w, [] => flushVar env w
  | none, c :: rest =>
    if c == '$' then substGo env (some []) rest else c :: substGo env none rest
  | some w, c :: rest =>
    if isWordChar c then substGo env (some (w ++ [c])) rest
    else flushVar env w ++
      (if c == '$' then substGo env (some []) rest else c :: substGo env none rest)

/-- Modelled from the spec: "substitute every `$name` occurrence in the
template with the environment's current string value for `name`
(unmatched placeholders are left as-is)".  The source's `Msg` handling
(`execute_block`, `MSG` branch) does none of this; this definition exists
only to state what claim C1 asserts. -/
def substSpecS (env : List (String × String)) (s : String) : String :=
  String.mk (substGo env none s.toList)

/-- How many `create` events in a trace are for pipeline name `n`. -/
def createCountFor (n : String) (evs : List Event) : Nat :=
  (evs.filter (fun e =>
    match e with
    | Event.create m _ _ => m == n
    | _ => false)).length

/-- A run with one named pipeline `p` that contains a single nested
reference to the named pipeline `q`. -/
def prog4 : List Node :=
  [Node.pipeline (some "img") none (some "p")
    [Node.pipeline (some "img2") none (some "q") [] none] none]

/-- The state after the nested pipeline `q` of the C5 scenario: the
parent's container `c0` and the fresh `c-q` are both already killed. -/
def stB : ExecState :=
  { vars := [], last_rc := 0, running_containers := [],
    events := [Event.create "q" "img" "c-q", Event.kill "c0", Event.kill "c-q"] }

/-- Does a tokenized line match one of the eight statement forms of the
grammar (pipeline open, step, conditional open, else, message,
assignment, terminator, exit)? -/
def matchesSomeForm (l : List Char) : Bool :=
  (pipeMatch l).isSome || (stepMatch l).isSome || (ifMatch l).isSome || elseMatch l ||
  (msgMatch l).isSome || (assignMatch l).isSome || endMatch l || exitMatch l

/-- The spec's reference pipeline scenario, verbatim. -/
def scenarioText : String :=
  "PIPELINE(name=\"p\", helper_image=\"img\")\nMSG(\"hi $LAST_RC\")\nSTEP a.sh\nIF $LAST_RC == \"0\":\nMSG(\"ok\")\nELSE:\nMSG(\"fail\")\nEND\nEND"

/-- The body the parser builds for the scenario's pipeline `p`. -/
def scenBody : List Node :=
  [Node.msgN "hi $LAST_RC", Node.stepN "a.sh",
   Node.ifN "LAST_RC" "==" "0" [Node.msgN "ok"] (some [Node.msgN "fail"])]

/-- The variables the parser seeds for the scenario. -/
def scenVars : List (String × String) := [("helper_image", "img"), ("pipeline_name", "p")]

/-- Scenario executor states, in execution order: initial state. -/
def stInit : ExecState :=
  { vars := scenVars, last_rc := 0, running_containers := [], events := [] }

/-- Scenario state after the container for `p` is created. -/
def stA : ExecState :=
  { vars := scenVars, last_rc := 0, running_containers := [("p", "c-p")],
    events := [Event.create "p" "img" "c-p"] }

/-- Scenario state after the first (unsubstituted) `hi` message. -/
def stA1 : ExecState :=
  { vars := scenVars, last_rc := 0, running_containers := [("p", "c-p")],
    events := [Event.create "p" "img" "c-p", Event.msg "Message: hi $LAST_RC"] }

/-- Scenario state after the step `a.sh` runs (exit code 0, with pipeline
name `None` inside `run_pipeline`, hence path `/pipeline/a.sh`). -/
def stA2 : ExecState :=
  { vars := scenVars, last_rc := 0, running_containers := [("p", "c-p")],
    events := [Event.create "p" "img" "c-p", Event.msg "Message: hi $LAST_RC",
      Event.execEv "c-p" "/pipeline/a.sh" 0] }

/-- Scenario state after the `If` takes its else branch (`LAST_RC` is
absent, so `str(None)` is compared) and emits `fail`. -/
def stA3 : ExecState :=
  { vars := scenVars, last_rc := 0, running_containers := [("p", "c-p")],
    events := [Event.create "p" "img" "c-p", Event.msg "Message: hi $LAST_RC",
      Event.execEv "c-p" "/pipeline/a.sh" 0, Event.msg "Message: fail"] }

/-- Scenario state after `run_pipeline` returns: every container killed. -/
def stB1 : ExecState :=
  { vars := scenVars, last_rc := 0, running_containers := [],
    events := [Event.create "p" "img" "c-p", Event.msg "Message: hi $LAST_RC",
      Event.execEv "c-p" "/pipeline/a.sh" 0, Event.msg "Message: fail",
      Event.kill "c-p"] }

/-- Scenario state after the duplicated body execution re-emits the `hi`
message; the duplicated step then raises `TypeError` (container id is
`None`). -/
def stB2 : ExecState :=
  { vars := scenVars, last_rc := 0, running_containers := [],
    events := [Event.create "p" "img" "c-p", Event.msg "Message: hi $LAST_RC",
      Event.execEv "c-p" "/pipeline/a.sh" 0, Event.msg "Message: fail",
      Event.kill "c-p", Event.msg "Message: hi $LAST_RC"] }

/-- The `PIPELINE` branch of `execute_block` is exactly a call to
`run_pipeline` followed by the duplicated body execution of the source. -/
theorem execute_block_pipeline_eq (ad : Adapter) (hi sc nm : Option String)
    (body : List Node) (els : Option (List Node)) (rest : List Node)
    (cid pn : Option String) (st : ExecState) :
    execute_block ad (Node.pipeline hi sc nm body els :: rest) cid pn st =
      match run_pipeline ad hi sc nm body cid st with
      | (st1, some e) => (st1, some e)
      | (st1, none) =>
        match execute_block ad body none nm st1 with
        | (st2, some e) => (st2, some e)
        | (st2, none) => execute_block ad rest none pn st2 := by
  simp only [execute_block, run_pipeline]

/-- Evaluation rule: an empty block leaves the state unchanged. -/
theorem execute_block_nil (ad : Adapter) (cid pn : Option String) (st : ExecState) :
    execute_block ad [] cid pn st = (st, none) := by
  simp [execute_block]

/-- Evaluation rule: a `Msg` statement appends its printed text and
execution continues. -/
theorem execute_block_msg (ad : Adapter) (m : String) (rest : List Node)
    (cid pn : Option String) (st : ExecState) :
    execute_block ad (Node.msgN m :: rest) cid pn st =
      execute_block ad rest cid pn
        { st with events := st.events ++ [Event.msg ("Message: " ++ m)] } := by
  simp [execute_block]

/-- Evaluation rule: a succeeding `Step` continues with the stepped
state. -/
theorem execute_block_step_ok (ad : Adapter) (s : String) (rest : List Node)
    (cid pn : Option String) (st st1 : ExecState)
    (h : run_step ad s pn cid st = (st1, none)) :
    execute_block ad (Node.stepN s :: rest) cid pn st =
      execute_block ad rest cid pn st1 := by
  rw [execute_block.eq_def]
  simp [h]

/-- Evaluation rule: a raising `Step` aborts the rest of the block. -/
theorem execute_block_step_raise (ad : Adapter) (s : String) (rest : List Node)
    (cid pn : Option String) (st st1 : ExecState) (e : RErr)
    (h : run_step ad s pn cid st = (st1, some e)) :
    execute_block ad (Node.stepN s :: rest) cid pn st = (st1, some e) := by
  rw [execute_block.eq_def]
  simp [h]

/-- Evaluation rule: an `If` whose two comparisons both fail runs its
attached else body, then continues. -/
theorem execute_block_if_else (ad : Adapter) (v op val : String) (body e rest : List Node)
    (cid pn : Option String) (st st1 : ExecState)
    (hop1 : (op == "==" && pyStr (dictGet st.vars v) == val) = false)
    (hop2 : (op == "!=" && pyStr (dictGet st.vars v) != val) = false)
    (h : execute_block ad e cid pn st = (st1, none)) :
    execute_block ad (Node.ifN v op val body (some e) :: rest) cid pn st =
      execute_block ad rest cid pn st1 := by
  rw [execute_block.eq_def]
  simp [hop1, hop2, h]

/-- Evaluation rule: `run_pipeline` on a successfully started container
and successfully executed body ends by stopping all containers. -/
theorem run_pipeline_split (ad : Adapter) (hi sc nm : Option String) (body : List Node)
    (parent : Option String) (st st1 : ExecState) (cid : Option String) (st2 : ExecState)
    (h1 : start_container ad nm hi sc parent st = (st1, none, cid))
    (h2 : execute_block ad body cid none st1 = (st2, none)) :
    run_pipeline ad hi sc nm body parent st = (stop_all_containers st2, none) := by
  simp [run_pipeline, h1, h2]

/-- Evaluation rule: a top-level pipeline whose duplicated body
re-execution raises propagates that error out of the AST walk. -/
theorem execTop_pipe_raise (ad : Adapter) (hi sc nm : Option String) (body : List Node)
    (els : Option (List Node)) (rest : List Node) (st st1 st2 : ExecState) (e : RErr)
    (h1 : run_pipeline ad hi sc nm body none st = (st1, none))
    (h2 : execute_block ad body none nm st1 = (st2, some e)) :
    execTop ad (Node.pipeline hi sc nm body els :: rest) st = (st2, some e) := by
  simp only [execTop, h1, h2]

/-- Evaluation rule: a `TypeError` escaping the AST walk is re-raised by
`execute` after the `finally` cleanup. -/
theorem execute_raise (ad : Adapter) (vars : List (String × String)) (ast : List Node)
    (st1 : ExecState)
    (h : execTop ad ast
        { vars := vars, last_rc := 0, running_containers := [], events := [] } =
      (st1, some RErr.typeError)) :
    execute ad vars ast = (stop_all_containers st1, some RErr.typeError) := by
  unfold execute
  show (match execTop ad ast
      { vars := vars, last_rc := 0, running_containers := [], events := [] } with
    | (st, some RErr.executionStopped) => (stop_all_containers st, none)
    | (st, some e) => (stop_all_containers st, some e)
    | (st, none) => (stop_all_containers st, none)) =
    (stop_all_containers st1, some RErr.typeError)
  rw [h]

/-- C1, counterexample.  The claim says executing a `Msg` node emits the
template with every `$name` placeholder replaced by the environment's
value.  With `name` bound to `world`, the code emits the template verbatim
(`Message: hi $name`), not the substituted text the claim requires. -/
theorem c1_counterexample :
    (execute_block ad0 [Node.assignN "name" "world", Node.msgN "hi $name"]
        (some "c") none st0).1.events = [Event.msg "Message: hi $name"]
    ∧ substSpecS [("name", "world")] "hi $name" = "hi world"
    ∧ "Message: hi $name" ≠ "Message: " ++ substSpecS [("name", "world")] "hi $name" := by
  refine ⟨?_, by decide, by decide⟩
  simp [execute_block, dictSet, st0]

/-- C1, amended.  Executing a `Msg` node emits exactly the literal
template text (prefixed `Message: `): no placeholder is substituted and
the state is otherwise unchanged. -/
theorem c1_theorem (ad : Adapter) (m : String) (cid pn : Option String) (st : ExecState) :
    execute_block ad [Node.msgN m] cid pn st =
      ({ st with events := st.events ++ [Event.msg ("Message: " ++ m)] }, none) := by
  simp [execute_block]

/-- C2, counterexample.  The claim says the exit code of a step is stored
both in `last_rc` and in the variable environment under `LAST_RC`.  After
a step exiting with code 7, `last_rc` is 7 but the environment still has
no `LAST_RC` entry. -/
theorem c2_counterexample :
    (run_step ad7 "s.sh" none (some "c") st0).1.last_rc = 7
    ∧ dictGet (run_step ad7 "s.sh" none (some "c") st0).1.vars "LAST_RC" = none := by
  exact ⟨rfl, rfl⟩

/-- C2, amended.  A step stores the adapter's exit code only in `last_rc`;
the variable environment is left unchanged (no `LAST_RC` key is written),
so a later `If` or `Msg` referencing `LAST_RC` does not observe it. -/
theorem c2_theorem (ad : Adapter) (script : String) (pn : Option String) (cid : String)
    (st : ExecState) :
    run_step ad script pn (some cid) st =
      ({ st with
          last_rc := ad.execRc cid (stepPath pn script) st.vars,
          events := st.events ++
            [Event.execEv cid (stepPath pn script) (ad.execRc cid (stepPath pn script) st.vars)] },
        none) := by
  rfl

/-- C3, counterexample.  The claim says a pipeline with no name but with a
parent handle executes as an error-free no-op passthrough on the parent's
handle.  The code instead raises `ValueError` for any nameless pipeline,
parent handle or not. -/
theorem c3_counterexample :
    start_container ad0 none none none (some "c0") st0 =
      (st0, some (RErr.valueError "Pipeline must have a \x27name\x27 to assign a container"),
        none) := by
  rfl

/-- C3, amended.  Environment resolution first requires a truthy pipeline
name (a nameless pipeline is a fatal error even when a parent handle
exists); given a name: reuse its registry entry if present; else create
and register a container when a truthy `helper_image` is declared; else
reuse a truthy parent handle; else fail. -/
theorem c3_theorem :
    (∀ (ad : Adapter) (hi sc parent : Option String) (st : ExecState),
      start_container ad none hi sc parent st =
        (st, some (RErr.valueError "Pipeline must have a \x27name\x27 to assign a container"),
          none))
    ∧ (∀ (ad : Adapter) (nm : String) (hi sc parent : Option String) (st : ExecState)
        (cid : String), truthy (some nm) = true →
        dictGet st.running_containers nm = some cid →
        start_container ad (some nm) hi sc parent st = (st, none, some cid))
    ∧ (∀ (ad : Adapter) (nm img : String) (sc parent : Option String) (st : ExecState),
        truthy (some nm) = true → truthy (some img) = true →
        dictGet st.running_containers nm = none →
        start_container ad (some nm) (some img) sc parent st =
          ({ st with
              running_containers := dictSet st.running_containers nm
                (ad.createCid nm img (if truthy sc then sc else none)),
              events := st.events ++
                [Event.create nm img (ad.createCid nm img (if truthy sc then sc else none))] },
            none, some (ad.createCid nm img (if truthy sc then sc else none))))
    ∧ (∀ (ad : Adapter) (nm : String) (sc : Option String) (pcid : String) (st : ExecState),
        truthy (some nm) = true → truthy (some pcid) = true →
        dictGet st.running_containers nm = none →
        start_container ad (some nm) none sc (some pcid) st = (st, none, some pcid))
    ∧ (∀ (ad : Adapter) (nm : String) (sc : Option String) (st : ExecState),
        truthy (some nm) = true →
        dictGet st.running_containers nm = none →
        start_container ad (some nm) none sc none st =
          (st, some (RErr.valueError ("Cannot start pipeline \x27" ++ nm ++
            "\x27: no helper_image and no parent container")), none)) := by
  refine ⟨?_, ?_, ?_, ?_, ?_⟩
  · intro ad hi sc parent st
    rfl
  · intro ad nm hi sc parent st cid ht hg
    simp [start_container, ht, hg]
  · intro ad nm img sc parent st ht hti hg
    simp [start_container, ht, hti, hg]
  · intro ad nm sc pcid st ht htp hg
    simp only [truthy, Bool.not_eq_true'] at ht htp
    simp [start_container, ht, htp, hg, truthy]
  · intro ad nm sc st ht hg
    simp only [truthy, Bool.not_eq_true'] at ht
    simp [start_container, ht, hg, truthy]

/-- C3, witness: parent-handle reuse for the named pipeline `p` with no
image, via the amended rule. -/
theorem c3_witness :
    start_container ad0 (some "p") none none (some "c0") st0 = (st0, none, some "c0") :=
  c3_theorem.2.2.2.1 ad0 "p" none "c0" st0 rfl rfl rfl

/-- C4, counterexample.  The claim says an entry created for a pipeline
name is reused on every later reference within the run and torn down only
at run end.  A single run of `prog4` creates a container for `q` twice:
every `run_pipeline` return kills all containers and clears the registry
mid-run, so the later reference to `q` cannot reuse the first entry. -/
theorem c4_counterexample :
    createCountFor "q" (execute ad0 [] prog4).1.events = 2
    ∧ ¬ createCountFor "q" (execute ad0 [] prog4).1.events ≤ 1 := by
  have h : (execute ad0 [] prog4).1.events =
      [Event.create "p" "img" "c-p", Event.create "q" "img2" "c-q",
       Event.kill "c-p", Event.kill "c-q", Event.create "q" "img2" "c-q",
       Event.kill "c-q"] := by
    simp +decide [execute, execTop, run_pipeline, execute_block, start_container,
      stop_all_containers, prog4, ad0, dictGet, dictSet, truthy]
  rw [h]
  exact ⟨rfl, by decide⟩

/-- C4, amended.  The registry does not live for the whole run: every
successful `run_pipeline` call — including calls for nested pipelines in
the middle of the run — kills all registered containers and leaves the
registry empty, so later references to the same name re-create their
environment. -/
theorem c4_theorem (ad : Adapter) (hi sc nm : Option String) (body : List Node)
    (parent : Option String) (st st' : ExecState) :
    run_pipeline ad hi sc nm body parent st = (st', none) → st'.running_containers = [] := by
  intro h
  unfold run_pipeline at h
  split at h
  · simp at h
  · split at h
    · simp at h
    · injection h with h1 h2
      subst h1
      rfl

/-- C4, witness: the registry left by a concrete successful
`run_pipeline` call is empty. -/
theorem c4_witness :
    ({ vars := [], last_rc := 0, running_containers := [],
       events := [Event.create "w" "i" "c-w", Event.kill "c-w"] } : ExecState).running_containers
      = [] :=
  c4_theorem ad0 (some "i") none (some "w") [] none st0
    { vars := [], last_rc := 0, running_containers := [],
      events := [Event.create "w" "i" "c-w", Event.kill "c-w"] }
    (by simp +decide [run_pipeline, execute_block, start_container, stop_all_containers, st0,
      ad0, dictGet, dictSet, truthy])

/-- C5, counterexample.  The claim says that after a nested pipeline the
enclosing block's subsequent statements run on the parent's original
handle (`c0` here).  Instead the nested call's `None` return value
replaces the block's handle: the following step raises `TypeError`
instead of producing an exec event on `c0` — and the parent's container
was already killed by the nested pipeline's teardown. -/
theorem c5_counterexample :
    execute_block ad0 [Node.pipeline (some "img") none (some "q") [] none, Node.stepN "s.sh"]
        (some "c0") (some "p") st5 =
      ({ vars := [], last_rc := 0, running_containers := [],
         events := [Event.create "q" "img" "c-q", Event.kill "c0", Event.kill "c-q"] },
        some RErr.typeError) := by
  simp +decide [execute_block, run_step, start_container, stop_all_containers, st5, ad0,
    dictGet, dictSet, truthy]

/-- C5, amended.  After a nested `Pipeline` node (whose `run_pipeline`
call returned, and whose duplicated body re-execution also returned), the
enclosing block's remaining statements execute with container handle
`none` — the method's `None` return value — not with the parent's
original handle. -/
theorem c5_theorem (ad : Adapter) (hi sc nm : Option String) (body : List Node)
    (els : Option (List Node)) (rest : List Node) (cid pn : Option String)
    (st st1 st2 : ExecState) :
    run_pipeline ad hi sc nm body cid st = (st1, none) →
    execute_block ad body none nm st1 = (st2, none) →
    execute_block ad (Node.pipeline hi sc nm body els :: rest) cid pn st =
      execute_block ad rest none pn st2 := by
  intro h1 h2
  simp only [execute_block_pipeline_eq, h1, h2]

/-- C5, witness: in the concrete C5 scenario the remaining `STEP` is
executed with handle `none`, via the amended rule. -/
theorem c5_witness :
    execute_block ad0 [Node.pipeline (some "img") none (some "q") [] none, Node.stepN "s.sh"]
        (some "c0") (some "p") st5 =
      execute_block ad0 [Node.stepN "s.sh"] none (some "p") stB :=
  c5_theorem ad0 (some "img") none (some "q") [] none [Node.stepN "s.sh"] (some "c0") (some "p")
    st5 stB stB
    (by simp +decide [run_pipeline, execute_block, start_container, stop_all_containers, st5,
      ad0, dictGet, dictSet, truthy, stB])
    (by simp [execute_block])

/-- C6, counterexample.  The claim says a variable absent from the
environment never compares equal to any literal.  With `FOO` unbound,
`IF $FOO == "None":` executes its body, because the code compares
`str(None)`, the text `None`, against the literal. -/
theorem c6_counterexample :
    dictGet st0.vars "FOO" = none
    ∧ execute_block ad0 [Node.ifN "FOO" "==" "None" [Node.msgN "yes"] none] (some "c") none st0 =
        ({ st0 with events := [Event.msg "Message: yes"] }, none) := by
  exact ⟨rfl, by simp [execute_block, pyStr, dictGet, st0]⟩

/-- C6, amended.  `If` compares `pyStr` of the environment's value — the
value itself when the variable is bound, the text `None` when it is
absent — with the literal: `==` runs the body on textual equality, `!=`
on inequality, and otherwise the `else` branch runs when present. -/
theorem c6_theorem (ad : Adapter) (v op val : String) (body : List Node)
    (els : Option (List Node)) (cid pn : Option String) (st : ExecState) :
    execute_block ad [Node.ifN v op val body els] cid pn st =
      if op == "==" && pyStr (dictGet st.vars v) == val then
        execute_block ad body cid pn st
      else if op == "!=" && pyStr (dictGet st.vars v) != val then
        execute_block ad body cid pn st
      else
        match els with
        | some e => execute_block ad e cid pn st
        | none => (st, none) := by
  rw [execute_block.eq_def]
  simp only []
  by_cases h1 : (op == "==" && pyStr (dictGet st.vars v) == val) = true
  · rcases hb : execute_block ad body cid pn st with ⟨stb, oeb⟩
    cases oeb <;> simp [h1, hb, execute_block]
  · by_cases h2 : (op == "!=" && pyStr (dictGet st.vars v) != val) = true
    · rcases hb : execute_block ad body cid pn st with ⟨stb, oeb⟩
      cases oeb <;> simp [h1, h2, hb, execute_block]
    · cases els with
      | none => simp [h1, h2, execute_block]
      | some e =>
        rcases he : execute_block ad e cid pn st with ⟨ste, oee⟩
        cases oee <;> simp [h1, h2, he, execute_block]


/-- C7, counterexample.  The claim says a tokenized line matching none of
the eight statement forms fails with a parse error.  The line `FOO`
matches none of them, yet parsing succeeds and the line is silently
skipped (the parser's dispatch chain has no error fallback). -/
theorem c7_counterexample :
    matchesSomeForm "FOO".toList = false
    ∧ parseTokens ["FOO"] = Except.ok initPState := ⟨rfl, rfl⟩

/-- C7, amended.  A tokenized line matching none of the eight statement
forms is silently skipped: the parser state is returned unchanged and no
error is reported. -/
theorem c7_theorem (l : List Char) (st : PState) (h : matchesSomeForm l = false) :
    parseLine l st = Except.ok st := by
  rcases hp : pipeMatch l with _ | v1
  case some => simp [matchesSomeForm, hp] at h
  rcases hs : stepMatch l with _ | v2
  case some => simp [matchesSomeForm, hs] at h
  rcases hi : ifMatch l with _ | v3
  case some => simp [matchesSomeForm, hi] at h
  cases he : elseMatch l
  case true => simp [matchesSomeForm, he] at h
  rcases hm : msgMatch l with _ | v4
  case some => simp [matchesSomeForm, hm] at h
  rcases ha : assignMatch l with _ | v5
  case some => simp [matchesSomeForm, ha] at h
  cases hd : endMatch l
  case true => simp [matchesSomeForm, hd] at h
  cases hx : exitMatch l
  case true => simp [matchesSomeForm, hx] at h
  simp [parseLine, hp, hs, hi, he, hm, ha, hd, hx]

/-- C7, witness: the unrecognized line `FOO` is skipped, via the amended
rule. -/
theorem c7_witness :
    parseLine "FOO".toList initPState = Except.ok initPState :=
  c7_theorem _ _ rfl

/-- C8, counterexample.  The claim says an input with a block still open
at end of input fails with SyntaxError and nothing executes.  A lone
pipeline-open line parses successfully: the parser never checks that its
stack is empty at end of input. -/
theorem c8_counterexample :
    parseTokens ["PIPELINE(name=\"p\")"] =
      Except.ok { stack := [Frame.pipeFrame [] none none (some "p")], current := [],
                  vars := [("pipeline_name", "p")] } := rfl

/-- C8, amended.  An unmatched block terminator does fail with
SyntaxError (`END without matching block`) — that half of the claim
holds; an unclosed block at end of input, however, is accepted. -/
theorem c8_theorem (st : PState) (h : st.stack = []) :
    parseLine "END".toList st = Except.error (PErr.syntaxError "END without matching block") := by
  have he : parseLine "END".toList st = endStep st := rfl
  rw [he]
  unfold endStep
  rw [h]

/-- C8, witness: a lone `END` is rejected, via the amended rule. -/
theorem c8_witness :
    parseLine "END".toList initPState =
      Except.error (PErr.syntaxError "END without matching block") :=
  c8_theorem initPState rfl

/-- C9: the code run of the spec's reference scenario.  With every exec
exit code 0 the claim expects one create, one substituted message, one
exec, the `ok` message, one destroy, each body statement once.  The code
instead creates `p` once, emits the `hi` message twice and unsubstituted,
runs `a.sh` once, emits `fail` (not `ok`) because `LAST_RC` was never
written to the environment, kills `p`, and then crashes with `TypeError`
when the duplicated body execution reaches the step with a `None`
container id. -/
theorem c9_theorem :
    runScript ad0 scenarioText = Except.ok (stB2, some RErr.typeError) := by
  have hb : execute_block ad0 scenBody (some "c-p") none stA = (stA3, none) := by
    have m1 : execute_block ad0 scenBody (some "c-p") none stA =
        execute_block ad0 [Node.stepN "a.sh",
          Node.ifN "LAST_RC" "==" "0" [Node.msgN "ok"] (some [Node.msgN "fail"])]
          (some "c-p") none stA1 :=
      execute_block_msg ad0 "hi $LAST_RC" _ _ _ stA
    have m2 : execute_block ad0 [Node.stepN "a.sh",
          Node.ifN "LAST_RC" "==" "0" [Node.msgN "ok"] (some [Node.msgN "fail"])]
          (some "c-p") none stA1 =
        execute_block ad0 [Node.ifN "LAST_RC" "==" "0" [Node.msgN "ok"]
          (some [Node.msgN "fail"])] (some "c-p") none stA2 :=
      execute_block_step_ok ad0 "a.sh" _ _ _ stA1 stA2 rfl
    have m3 : execute_block ad0 [Node.ifN "LAST_RC" "==" "0" [Node.msgN "ok"]
          (some [Node.msgN "fail"])] (some "c-p") none stA2 =
        execute_block ad0 [] (some "c-p") none stA3 :=
      execute_block_if_else ad0 "LAST_RC" "==" "0" [Node.msgN "ok"] [Node.msgN "fail"] []
        (some "c-p") none stA2 stA3 rfl rfl
        ((execute_block_msg ad0 "fail" [] (some "c-p") none stA2).trans
          (execute_block_nil ad0 (some "c-p") none stA3))
    exact m1.trans (m2.trans (m3.trans (execute_block_nil ad0 (some "c-p") none stA3)))
  have hrp : run_pipeline ad0 (some "img") none (some "p") scenBody none stInit =
      (stB1, none) :=
    run_pipeline_split ad0 (some "img") none (some "p") scenBody none stInit stA
      (some "c-p") stA3 rfl hb
  have hc : execute_block ad0 scenBody none (some "p") stB1 =
      (stB2, some RErr.typeError) := by
    have n1 : execute_block ad0 scenBody none (some "p") stB1 =
        execute_block ad0 [Node.stepN "a.sh",
          Node.ifN "LAST_RC" "==" "0" [Node.msgN "ok"] (some [Node.msgN "fail"])]
          none (some "p") stB2 :=
      execute_block_msg ad0 "hi $LAST_RC" _ _ _ stB1
    exact n1.trans
      (execute_block_step_raise ad0 "a.sh" _ none (some "p") stB2 stB2 RErr.typeError rfl)
  have hT : execTop ad0 [Node.pipeline (some "img") none (some "p") scenBody none] stInit =
      (stB2, some RErr.typeError) :=
    execTop_pipe_raise ad0 (some "img") none (some "p") scenBody none [] stInit stB1 stB2
      RErr.typeError hrp hc
  have hparse : parseTokens (tokenize scenarioText) =
      Except.ok { stack := [],
                  current := [Node.pipeline (some "img") none (some "p") scenBody none],
                  vars := scenVars } := rfl
  have hE : execute ad0 scenVars [Node.pipeline (some "img") none (some "p") scenBody none] =
      (stB2, some RErr.typeError) := by
    have h := execute_raise ad0 scenVars
      [Node.pipeline (some "img") none (some "p") scenBody none] stB2 hT
    exact h.trans (by rfl)
  unfold runScript
  rw [hparse]
  show Except.ok
      (execute ad0 scenVars [Node.pipeline (some "img") none (some "p") scenBody none]) =
    Except.ok (stB2, some RErr.typeError)
  rw [hE]

/-- C10: terminator and exit recognition is by unanchored prefix match.
Every line beginning with the characters `END` — whatever follows — takes
the generic-terminator action `endStep` (none of the earlier statement
forms can match such a line), and every line beginning with `EXIT` that
reaches the later forms appends an `Exit` node. -/
theorem c10_theorem :
    (∀ (rest : List Char) (st : PState),
      parseLine ('E' :: 'N' :: 'D' :: rest) st = endStep st)
    ∧ (∀ (rest : List Char) (st : PState),
      parseLine ('E' :: 'X' :: 'I' :: 'T' :: rest) st =
        Except.ok { st with current := st.current ++ [Node.exitN] }) := by
  constructor <;> (intro rest st; rfl)

end Wrci
